import Mathlib

set_option maxRecDepth 4000

/-!
Verification model of `atomicapp/providers/openshift.py` (class
`OpenShiftProvider`): the resource namer, the configuration resolver, the
URL resolver, artifact/template processing and the deployment loop.
HTTP transport, file reading and the markup parser are external
collaborators; they enter the model as oracle functions and as already
parsed values.
-/

/-- Python exception outcomes relevant to this module. `providerFailed`
models `ProviderFailedException`; the other constructors model the
built-in exceptions the code can raise. -/
inductive PyError where
  | providerFailed (msg : String)
  | keyError (key : String)
  | typeError (msg : String)
  | indexError
  deriving DecidableEq, Repr

/-- Python `str.lower()` (ASCII case folding, as for Python 2 `str`). -/
def pyLower (s : String) : String :=
  String.mk (s.toList.map Char.toLower)

/-- Python `str.endswith(suffix)`. -/
def pyEndsWith (s suffix : String) : Bool :=
  suffix.toList.isSuffixOf s.toList

/-- Python `str.rstrip("y")`: remove every trailing `'y'` character. -/
def rstripY (s : String) : String :=
  String.mk ((s.toList.reverse.dropWhile (fun c => c == 'y')).reverse)

/-- Python `"%s" % v` / `str(v)` on an optional string: `None` renders as
the four-character string `None`. -/
def pyStr : Option String → String
  | none => "None"
  | some s => s

/-- `_kind_to_resource` (openshift.py:211): lower-case the kind, then
pluralize by suffix rewriting. `none` models the `IndexError` that
`singular[-1]` raises on the empty string. -/
def kindToResource (kind : String) : Option String :=
  let singular := pyLower kind
  if pyEndsWith singular "status" then some (singular ++ "es")
  else if singular = "" then none
  else if pyEndsWith singular "s" then some singular
  else if pyEndsWith singular "y" then some (rstripY singular ++ "ies")
  else some (singular ++ "s")

/-- The Resource Namer rule exactly as the specification words it: a kind
ending in "y" has the single trailing "y" stripped before "ies" is
appended. Stated only to be compared against `kindToResource`. -/
def specNamer (kind : String) : String :=
  let s := pyLower kind
  if pyEndsWith s "status" then s ++ "es"
  else if pyEndsWith s "s" then s
  else if pyEndsWith s "y" then s.dropRight 1 ++ "ies"
  else s ++ "s"

/-- The namer rule with the amendment the code forces: a kind ending in
"y" has every trailing "y" stripped (Python `rstrip`), and the empty
string is outside the rule's domain. -/
def amendedNamer (kind : String) : String :=
  let s := pyLower kind
  if pyEndsWith s "status" then s ++ "es"
  else if pyEndsWith s "s" then s
  else if pyEndsWith s "y" then rstripY s ++ "ies"
  else s ++ "s"

/-- Python truthiness of an optional string: `None` and the empty string
are falsy, every other string is truthy. -/
def truthy : Option String → Bool
  | none => false
  | some s => !(s == "")

/-- Modelled from the spec: `DEFAULT_NAMESPACE` is imported from
`atomicapp.constants`, a module not present in the sources; the spec's
data model gives the namespace default as the constant "default". -/
def DEFAULT_NAMESPACE : String := "default"

/-- Class attribute `providerapi` (openshift.py:41): the compiled-in
endpoint default, a local loopback address. -/
def defaultProviderApi : String := "https://127.0.0.1:8443"

/-- The conflict message of `_get_config_values` (openshift.py:393); the
two file names interpolated there come from attributes external to this
module and are rendered here as fixed source identifiers. -/
def conflictMsg (pcVal ansVal : String) : String :=
  "There are conflicting values in providerconfig (" ++ pcVal ++
    ") and answers.conf (" ++ ansVal ++ ")"

/-- One iteration of the merge loop of `_get_config_values`
(openshift.py:384): the three sequential truthiness tests on the answers
value and the provider-config value for a single field, starting from the
compiled-in default. -/
def resolveField (dflt ans pc : Option String) : Except PyError (Option String) :=
  let r1 := if truthy ans && !(truthy pc) then ans else dflt
  let r2 := if !(truthy ans) && truthy pc then pc else r1
  if truthy ans && truthy pc then
    if ans == pc then .ok ans
    else .error (.providerFailed (conflictMsg (pyStr pc) (pyStr ans)))
  else .ok r2

/-- The `context` entry of a kubectl config: the cluster and user names it
references and its optional namespace. -/
structure KContextBody where
  cluster : String
  user : String
  nsField : Option String
  deriving DecidableEq, Repr

structure KContext where
  name : String
  context : KContextBody
  deriving DecidableEq, Repr

structure KCluster where
  name : String
  server : String
  deriving DecidableEq, Repr

structure KUser where
  name : String
  token : String
  deriving DecidableEq, Repr

/-- A parsed kubectl config file, with the keys `_parse_kubeconf` reads. -/
structure Kubeconfig where
  currentContext : String
  contexts : List KContext
  clusters : List KCluster
  users : List KUser
  deriving DecidableEq, Repr

/-- The lookup loops of `_parse_kubeconf` keep the last matching entry. -/
def lastMatch (p : α → Bool) (l : List α) : Option α :=
  l.foldl (fun acc x => if p x then some x else acc) none

/-- `_parse_kubeconf` (openshift.py:274). When the current context names no
entry, the clusters loop evaluates `context["context"]["cluster"]` with
`context = None` and Python raises `TypeError` before the
`if not context ...` check is reached; the check is reached in that case
only when the clusters and users lists are both empty, so that neither
loop body runs. A missing cluster or user entry does reach the check and
raises `ProviderFailedException`. -/
def parseKubeconf (cfg : Kubeconfig) : Except PyError (String × String × Option String) :=
  match lastMatch (fun co => co.name == cfg.currentContext) cfg.contexts with
  | none =>
    if cfg.clusters.isEmpty && cfg.users.isEmpty then
      .error (.providerFailed "Invalid %s")
    else
      .error (.typeError "NoneType object is unsubscriptable")
  | some co =>
    let cluster := lastMatch (fun cl => cl.name == co.context.cluster) cfg.clusters
    let user := lastMatch (fun u => u.name == co.context.user) cfg.users
    match cluster, user with
    | some cl, some u => .ok (cl.server, u.token, co.context.nsField)
    | _, _ => .error (.providerFailed "Invalid %s")

/-- The three values `_get_config_values` reads from `answers.conf` via
`self.config.get` (openshift.py:374). -/
structure Answers where
  nsVal : Option String
  tokenVal : Option String
  apiVal : Option String
  deriving DecidableEq, Repr

/-- `_get_config_values` (openshift.py:348): merge the answers values with
the optional provider config file, field by field in the loop order
namespace, access token, provider API; returns
(providerapi, access_token, namespace). -/
def getConfigValues (answers : Answers) (configFile : Option Kubeconfig) :
    Except PyError (Option String × Option String × Option String) := do
  let pc : Option String × Option String × Option String ←
    match configFile with
    | none => pure (none, none, none)
    | some kc => do
      let r ← parseKubeconf kc
      pure (some r.1, some r.2.1, r.2.2)
  let nsRes ← resolveField (some DEFAULT_NAMESPACE) answers.nsVal pc.2.2
  let tokRes ← resolveField none answers.tokenVal pc.2.1
  let apiRes ← resolveField (some defaultProviderApi) answers.apiVal pc.1
  pure (apiRes, tokRes, nsRes)

/-- The part of Python 2 `urlparse.urljoin` this module exercises: a falsy
(`None`) base returns the reference unchanged; a query-only reference
replaces the base's query; a relative path reference replaces everything
after the last slash of the base. Faithful for bases that are empty or
absolute URLs whose path ends in a slash and carries no query or
fragment, and for references without scheme, leading slash, fragment or
dot segment - the only shapes `_get_url` and `init` produce. -/
def pyUrljoin (base rel : String) : String :=
  if base = "" then rel
  else if rel = "" then base
  else if rel.toList.head? == some '?' then
    String.mk (base.toList.takeWhile (fun c => c != '?')) ++ rel
  else
    String.mk ((base.toList.reverse.dropWhile (fun c => c != '/')).reverse) ++ rel

/-- The per-session state `init` stores on the provider instance: the two
discovered resource catalogs, the two API bases, the resolved access
token and namespace, and the dry-run flag supplied by the host. -/
structure Session where
  oapiResources : List String
  kapiResources : List String
  openshiftApi : String
  kubernetesApi : String
  accessToken : Option String
  defaultNs : String
  dryrun : Bool

/-- The `metadata` mapping of an artifact, with the two keys this module
reads; either key may be missing. -/
structure KMeta where
  nameVal : Option String
  nsVal : Option String
  deriving DecidableEq, Repr

/-- A parsed OpenShift/Kubernetes object: a mapping that may carry a
`kind` and a `metadata` entry. -/
structure KObj where
  kind : Option String
  metadata : Option KMeta
  deriving DecidableEq, Repr

/-- `_get_namespace` (openshift.py:107): the artifact's
`metadata.namespace` when present, else the session default. -/
def getNamespace (s : Session) (a : KObj) : String :=
  match a.metadata with
  | some m =>
    match m.nsVal with
    | some v => v
    | none => s.defaultNs
  | none => s.defaultNs

/-- The lookup chain `artifact["metadata"]["name"]`, with the `KeyError`
Python raises at whichever level is missing. -/
def metaNameLookup (a : KObj) : Except PyError String :=
  match a.metadata with
  | none => .error (.keyError "metadata")
  | some m =>
    match m.nameVal with
    | none => .error (.keyError "name")
    | some n => .ok n

/-- `_get_url` (openshift.py:238): pick the OpenShift base when the plural
resource is in the OpenShift catalog, else the Kubernetes base when it is
in the Kubernetes catalog, else leave the base `None` (empty here, as
Python 2 `urljoin` treats them alike); then join the namespace/resource
path, the optional object name, and the access-token query. `indexError`
models `_kind_to_resource` raising on an empty kind. -/
def getUrl (s : Session) (nsName kind : String) (objName : Option String) :
    Except PyError String :=
  match kindToResource kind with
  | none => .error .indexError
  | some resource =>
    let base :=
      if s.oapiResources.contains resource then s.openshiftApi
      else if s.kapiResources.contains resource then s.kubernetesApi
      else ""
    let url := pyUrljoin base ("namespaces/" ++ nsName ++ "/" ++ resource ++ "/")
    let url :=
      match objName with
      | some n => pyUrljoin url n
      | none => url
    .ok (pyUrljoin url ("?access_token=" ++ pyStr s.accessToken))

/-- `self.openshift_artifacts`: a dict from lowercase kind to the list of
artifacts of that kind, in insertion order. -/
abbrev Registry := List (String × List KObj)

/-- `self.openshift_artifacts[kind].append(obj)`, creating the key when it
is new (openshift.py:176 and openshift.py:182). -/
def regAdd (reg : Registry) (k : String) (o : KObj) : Registry :=
  match reg with
  | [] => [(k, [o])]
  | (k', l) :: rest =>
    if k' == k then (k', l ++ [o]) :: rest
    else (k', l) :: regAdd rest k o

/-- The list stored under a key of the registry (empty when absent). -/
def regGet (reg : Registry) (k : String) : List KObj :=
  match reg with
  | [] => []
  | (k', l) :: rest => if k' == k then l else regGet rest k

/-- Whether an object occurs anywhere in the registry. -/
def regMemP (reg : Registry) (o : KObj) : Prop :=
  ∃ p ∈ reg, o ∈ p.2

/-- The iteration `for kind, objects in ... for artifact in objects` of
`deploy`, flattened in registry order. -/
def regPairs : Registry → List (String × KObj)
  | [] => []
  | (k, l) :: rest => l.map (fun o => (k, o)) ++ regPairs rest

/-- The cluster's answer to one `processedtemplates` POST: the HTTP status,
the `objects` entry of the parsed body when present, and the body's
rendering used in error messages. -/
structure TplResp where
  status : Nat
  objects : Option (List KObj)
  body : String

/-- `_process_template` (openshift.py:186): POST the template (the URL
built from `_get_url` with kind `processedtemplates` has no further
observable effect and the request is the oracle application); on 201 the
success log line evaluates `template["metadata"]["name"]` and the
`objects` entry of the body is returned; any other status raises with the
status and body. -/
def processTemplate (respond : KObj → TplResp) (t : KObj) : Except PyError (List KObj) :=
  let r := respond t
  if r.status == 201 then
    match metaNameLookup t with
    | .error e => .error e
    | .ok _ =>
      match r.objects with
      | none => .error (.keyError "objects")
      | some objs => .ok objs
  else
    .error (.providerFailed (toString r.status ++ " " ++ r.body))

/-- The loop at openshift.py:174: append each object returned by template
expansion under its own lowercase kind; `obj["kind"]` raises `KeyError`
when the object has no kind. -/
def addObjs (reg : Registry) : List KObj → Except PyError Registry
  | [] => .ok reg
  | o :: rest =>
    match o.kind with
    | none => .error (.keyError "kind")
    | some k => addObjs (regAdd reg (pyLower k) o) rest

/-- One iteration of `_process_artifacts` (openshift.py:151) on an already
parsed artifact (file reading and markup parsing are external); the first
component is the artifact identifier used in error messages. -/
def processOne (s : Session) (respond : KObj → TplResp) (reg : Registry)
    (art : String × KObj) : Except PyError Registry :=
  match art.2.kind with
  | none =>
    .error (.providerFailed ("Error processing " ++ art.1 ++ " artifact. There is no kind"))
  | some k0 =>
    let kind := pyLower k0
    match kindToResource kind with
    | none => .error .indexError
    | some resource =>
      if !(s.oapiResources.contains resource) && !(s.kapiResources.contains resource) then
        .error (.providerFailed ("Unsupported kind " ++ kind ++ " in artifact " ++ art.1))
      else if kind == "template" then
        match processTemplate respond art.2 with
        | .error e => .error e
        | .ok objs => addObjs reg objs
      else
        .ok (regAdd reg kind art.2)

/-- `_process_artifacts` over the artifact sequence: the first error
aborts the remaining iterations. -/
def processList (s : Session) (respond : KObj → TplResp) (reg : Registry) :
    List (String × KObj) → Except PyError Registry
  | [] => .ok reg
  | a :: rest =>
    match processOne s respond reg a with
    | .error e => .error e
    | .ok reg2 => processList s respond reg2 rest

/-- The cluster's answer to one deployment POST. -/
structure PostResp where
  status : Nat
  body : String

/-- What a run of `deploy` did: the POST requests actually issued, the
dry-run URLs logged, and the exception that ended the run, if any. -/
structure DeployOut where
  posts : List (String × KObj)
  logs : List String
  err : Option PyError
  deriving Repr

/-- `deploy` (openshift.py:123) over the flattened registry: per artifact,
resolve the namespace and URL; in dry-run log the URL and continue
without any request; otherwise POST, treat 201 as success (evaluating
`artifact["metadata"]["name"]` for the log line) and any other status as
fatal with a message built from the status and body. Nothing is ever
removed from `posts`: there is no rollback path. -/
def deployLoop (s : Session) (post : String → KObj → PostResp) :
    List (String × KObj) → List (String × KObj) → List String → DeployOut
  | [], posts, logs => ⟨posts, logs, none⟩
  | (kind, art) :: rest, posts, logs =>
    match getUrl s (getNamespace s art) kind none with
    | .error e => ⟨posts, logs, some e⟩
    | .ok url =>
      if s.dryrun then
        deployLoop s post rest posts (logs ++ [url])
      else
        let r := post url art
        if r.status == 201 then
          match metaNameLookup art with
          | .error e => ⟨posts ++ [(url, art)], logs, some e⟩
          | .ok _ => deployLoop s post rest (posts ++ [(url, art)]) logs
        else
          ⟨posts ++ [(url, art)], logs,
            some (.providerFailed (toString r.status ++ " " ++ r.body))⟩

def deploy (s : Session) (post : String → KObj → PostResp) (reg : Registry) : DeployOut :=
  deployLoop s post (regPairs reg) [] []

/-- The observable milestones of one `init` session, in order. -/
inductive Event where
  | oapiDiscovery
  | kapiDiscovery
  | artifactProcessed (name : String)
  deriving DecidableEq, Repr

/-- `init` (openshift.py:51) as written: it resolves the configuration and
builds the two API base URLs, then evaluates
`self._get_oapi_resources(self.providerapi)` - but `_get_oapi_resources`
(openshift.py:88) takes no parameter besides `self`, so the call itself
raises `TypeError` before any discovery request is made, and
`_get_kapi_resources` (openshift.py:69) has the same arity mismatch. The
trace records the events that actually happen before the exception. -/
def initProvider (answers : Answers) (configFile : Option Kubeconfig)
    (_artifacts : List (String × KObj)) : List Event × Option PyError :=
  match getConfigValues answers configFile with
  | .error e => ([], some e)
  | .ok _ =>
    ([], some (.typeError "_get_oapi_resources() takes exactly 1 argument (2 given)"))

/-- The optional trailing name segment of a deployment URL. -/
def nameSeg : Option String → String
  | none => ""
  | some n => n

/-- No question mark anywhere in the string. -/
def noQmark (t : String) : Bool := t.toList.all (fun c => c != '?')

/-- An API base of the shape `_get_url` receives from `init`: it ends in a
slash and carries no query. -/
def goodBase (b : String) : Bool :=
  (b.toList.getLast? == some '/') && noQmark b

/-- A plain path segment: nonempty, made of alphanumerics and dashes. -/
def safeSeg (t : String) : Bool :=
  !(t == "") && t.toList.all (fun c => c.isAlphanum || c == '-')

/-- The objects of a template expansion that land under registry key `j`. -/
def objsFor (j : String) (objs : List KObj) : List KObj :=
  objs.filter (fun o => o.kind.map pyLower == some j)

/-- The URL `deploy` logs for one registry entry in dry-run mode. -/
def dryrunUrl (s : Session) (p : String × KObj) : String :=
  match getUrl s (getNamespace s p.2) p.1 none with
  | .ok u => u
  | .error _ => ""

/-- A session whose OpenShift catalog serves `pods`, with no access token. -/
def c3S : Session :=
  ⟨["pods"], [], "https://127.0.0.1:8443/oapi/v1/", "https://127.0.0.1:8443/api/v1/",
   none, "default", false⟩

def c4Svc : KObj := ⟨some "Service", some ⟨some "svc1", none⟩⟩

def c4Tpl : KObj := ⟨some "Template", some ⟨some "tpl", none⟩⟩

def c4S : Session := ⟨[], ["templates", "services"], "o/", "k/", none, "default", false⟩

/-- A cluster that expands any template into the single service object. -/
def c4Respond : KObj → TplResp := fun _ => ⟨201, some [c4Svc], "body"⟩

def c5S : Session :=
  ⟨["pods"], [], "https://h/oapi/v1/", "https://h/api/v1/", some "tok", "default", false⟩

def c5Pod : KObj := ⟨some "Pod", some ⟨some "web", none⟩⟩

/-- A cluster that rejects every apply request. -/
def c5Post : String → KObj → PostResp := fun _ _ => ⟨403, "denied"⟩

def c6S : Session :=
  ⟨["pods"], [], "https://h/oapi/v1/", "https://h/api/v1/", some "tok", "default", true⟩

def c6Pod : KObj := ⟨some "Pod", some ⟨some "web", none⟩⟩

def c6Reg : Registry := [("pod", [c6Pod])]

def c6Post : String → KObj → PostResp := fun _ _ => ⟨201, "b"⟩

def c7S : Session := ⟨["pods"], ["services"], "o/", "k/", none, "default", false⟩

def c7Obj : KObj := ⟨some "Widget", none⟩

def c7Respond : KObj → TplResp := fun _ => ⟨500, none, "x"⟩

/-- A kubectl config whose current context names no context entry. -/
def c9BadCtx : Kubeconfig :=
  ⟨"missing", [⟨"other", ⟨"cl1", "u1", none⟩⟩],
   [⟨"cl1", "https://10.1.2.2:8443"⟩], [⟨"u1", "tok"⟩]⟩

/-- A kubectl config whose context references a missing cluster entry. -/
def c9BadCluster : Kubeconfig :=
  ⟨"ctx", [⟨"ctx", ⟨"nope", "u1", none⟩⟩],
   [⟨"cl1", "https://10.1.2.2:8443"⟩], [⟨"u1", "tok"⟩]⟩

/-- A kubectl config whose context references a missing user entry. -/
def c9BadUser : Kubeconfig :=
  ⟨"ctx", [⟨"ctx", ⟨"cl1", "nope", none⟩⟩],
   [⟨"cl1", "https://10.1.2.2:8443"⟩], [⟨"u1", "tok"⟩]⟩

/-- A well-formed kubectl config resolving through the context chain. -/
def c9Good : Kubeconfig :=
  ⟨"ctx", [⟨"ctx", ⟨"cl1", "u1", some "test"⟩⟩],
   [⟨"cl1", "https://10.1.2.2:8443"⟩], [⟨"u1", "abc"⟩]⟩

def c10S : Session :=
  ⟨["pods"], [], "https://h/oapi/v1/", "https://h/api/v1/", none, "default", false⟩

/-- An artifact whose metadata mapping has no name entry. -/
def c10Art : KObj := ⟨some "Pod", some ⟨none, none⟩⟩

def c10Post : String → KObj → PostResp := fun _ _ => ⟨201, "created"⟩

/-- A template with no metadata mapping at all. -/
def c10Tpl : KObj := ⟨some "Template", none⟩

def c10Respond : KObj → TplResp := fun _ => ⟨201, some [], "b"⟩
theorem strMkToList (s : String) : String.mk s.toList = s := by
  cases s
  rfl

theorem strToListAppend (a b : String) : (a ++ b).toList = a.toList ++ b.toList := by
  cases a
  cases b
  rfl

theorem strAppendAssoc (a b c : String) : a ++ b ++ c = a ++ (b ++ c) := by
  cases a
  cases b
  cases c
  apply congrArg String.mk
  apply List.append_assoc

theorem strAppendEmpty (s : String) : s ++ "" = s := by
  cases s with
  | mk l =>
    show String.mk (l ++ []) = String.mk l
    rw [List.append_nil]

theorem pyLowerNeEmpty (k : String) (h : k ≠ "") : pyLower k ≠ "" := by
  intro hc
  apply h
  cases k with
  | mk l =>
    cases l with
    | nil => rfl
    | cons c cs =>
      have hd := congrArg String.data hc
      simp [pyLower, String.toList] at hd

theorem kindToResourceAmended (k : String) (h : k ≠ "") :
    kindToResource k = some (amendedNamer k) := by
  have hl := pyLowerNeEmpty k h
  unfold kindToResource amendedNamer
  by_cases h1 : pyEndsWith (pyLower k) "status" = true
  · simp [h1]
  · by_cases h2 : pyEndsWith (pyLower k) "s" = true
    · simp [h1, h2, hl]
    · by_cases h3 : pyEndsWith (pyLower k) "y" = true
      · simp [h1, h2, h3, hl]
      · simp [h1, h2, h3, hl]

theorem kindToResourceSome (k : String) (h : k ≠ "") :
    ∃ r, kindToResource k = some r :=
  ⟨amendedNamer k, kindToResourceAmended k h⟩

/-- Claim C1 counterexample: on the kind "Ayy" the code's Python
`rstrip("y")` removes both trailing y characters and yields "aies",
while the claim's single-strip rule yields "ayies". -/
theorem c1_namer_counterexample :
    kindToResource "Ayy" = some "aies" ∧ specNamer "Ayy" = "ayies" ∧
    kindToResource "Ayy" ≠ some (specNamer "Ayy") := by
  refine ⟨rfl, rfl, ?_⟩
  decide

/-- Claim C1 as amended: the Resource Namer lower-cases the kind and then,
if it ends in "status", appends "es"; else if it ends in "s" returns it
unchanged; else if it ends in "y" strips every trailing "y" (not just
one) and appends "ies"; else appends "s"; the empty kind is outside the
rule (IndexError). The five quoted examples hold as stated. -/
theorem c1_namer_amended :
    (kindToResource "Pod" = some "pods" ∧
     kindToResource "Policy" = some "policies" ∧
     kindToResource "BuildConfig" = some "buildconfigs" ∧
     kindToResource "BuildStatus" = some "buildstatuses" ∧
     kindToResource "Endpoints" = some "endpoints" ∧
     kindToResource "" = none) ∧
    ∀ kind, kind ≠ "" → kindToResource kind = some (amendedNamer kind) :=
  ⟨⟨rfl, rfl, rfl, rfl, rfl, rfl⟩, kindToResourceAmended⟩

/-- Witness for C1's amended theorem at the concrete kind "Pod". -/
theorem c1_namer_amended_witness :
    kindToResource "Pod" = some (amendedNamer "Pod") :=
  c1_namer_amended.2 "Pod" (by decide)

/-- Claim C2: per configuration field, equal truthy values from the two
sources resolve to that value; differing truthy values are a conflict
error; a single truthy value wins; two falsy values leave the compiled-in
default - and with no answers values and no config file the resolver
yields the loopback endpoint, an absent token and the default
namespace. -/
theorem c2_config_merge :
    ∀ dflt ans pc : Option String,
    ((truthy ans = true → truthy pc = true → ans = pc →
        resolveField dflt ans pc = .ok ans) ∧
     (truthy ans = true → truthy pc = true → ans ≠ pc →
        resolveField dflt ans pc =
          .error (.providerFailed (conflictMsg (pyStr pc) (pyStr ans)))) ∧
     (truthy ans = true → truthy pc = false → resolveField dflt ans pc = .ok ans) ∧
     (truthy ans = false → truthy pc = true → resolveField dflt ans pc = .ok pc) ∧
     (truthy ans = false → truthy pc = false → resolveField dflt ans pc = .ok dflt)) ∧
    getConfigValues ⟨none, none, none⟩ none =
      .ok (some defaultProviderApi, none, some DEFAULT_NAMESPACE) := by
  intro dflt ans pc
  refine ⟨⟨?_, ?_, ?_, ?_, ?_⟩, rfl⟩
  · intro h1 h2 h3
    simp [resolveField, h1, h2, h3]
  · intro h1 h2 h3
    simp [resolveField, h1, h2, h3]
  · intro h1 h2
    simp [resolveField, h1, h2]
  · intro h1 h2
    simp [resolveField, h1, h2]
  · intro h1 h2
    simp [resolveField, h1, h2]

/-- Witness for C2 at concrete inputs: answers supply a namespace, the
config file none, so the answers value wins. -/
theorem c2_config_merge_witness :
    resolveField (some DEFAULT_NAMESPACE) (some "myproject") none = .ok (some "myproject") :=
  (c2_config_merge (some DEFAULT_NAMESPACE) (some "myproject") none).1.2.2.1 (by decide) (by decide)

/-- Claim C7: a parsed artifact whose plural resource name is in neither
catalog makes processing fail with the unsupported-kind error naming the
lowercase kind and the artifact identifier, and the registry pass aborts
there, so nothing is added for that manifest. -/
theorem c7_unsupported_kind :
    ∀ (s : Session) (respond : KObj → TplResp) (reg : Registry) (aname : String)
      (a : KObj) (k r : String) (rest : List (String × KObj)),
    a.kind = some k → kindToResource (pyLower k) = some r →
    s.oapiResources.contains r = false → s.kapiResources.contains r = false →
    processOne s respond reg (aname, a) =
      .error (.providerFailed ("Unsupported kind " ++ pyLower k ++ " in artifact " ++ aname)) ∧
    processList s respond reg ((aname, a) :: rest) =
      .error (.providerFailed ("Unsupported kind " ++ pyLower k ++ " in artifact " ++ aname)) := by
  intro s respond reg aname a k r rest hk hres hc1 hc2
  have h1 : processOne s respond reg (aname, a) =
      .error (.providerFailed ("Unsupported kind " ++ pyLower k ++ " in artifact " ++ aname)) := by
    simp only [processOne, hk, hres, hc1, hc2]
    simp
  exact ⟨h1, by simp [processList, h1]⟩

/-- Witness for C7: a "Widget" artifact against catalogs serving only pods
and services. -/
theorem c7_unsupported_kind_witness :
    processList c7S c7Respond [] [("app.yaml", c7Obj)] =
      .error (.providerFailed "Unsupported kind widget in artifact app.yaml") :=
  (c7_unsupported_kind c7S c7Respond [] "app.yaml" c7Obj "Widget" "widgets" []
    rfl rfl rfl rfl).2

/-- Claim C8 against the code as written: `init` calls
`self._get_oapi_resources(self.providerapi)` and
`self._get_kapi_resources(self.providerapi)` although both methods take
no parameter besides `self`, so every session dies with `TypeError`
before either discovery query is made and before any artifact is
processed: the event trace is always empty and the session always ends in
an error. -/
theorem c8_init_discovery_bug :
    ∀ (answers : Answers) (configFile : Option Kubeconfig)
      (arts : List (String × KObj)),
    (initProvider answers configFile arts).1 = [] ∧
    ((initProvider answers configFile arts).2).isSome = true := by
  intro a c arts
  unfold initProvider
  cases h : getConfigValues a c <;> simp

/-- Claim C9 against the code: when the current context names no context
entry, the clusters loop subscripts `None` and raises `TypeError`, not
the `ProviderFailedException` the claim requires; a missing cluster or
user entry does raise it, and a well-formed chain yields the
(server, token, namespace) triple. -/
theorem c9_kubeconf_lookup :
    parseKubeconf c9BadCtx = .error (.typeError "NoneType object is unsubscriptable") ∧
    parseKubeconf c9BadCluster = .error (.providerFailed "Invalid %s") ∧
    parseKubeconf c9BadUser = .error (.providerFailed "Invalid %s") ∧
    parseKubeconf c9Good = .ok ("https://10.1.2.2:8443", "abc", some "test") :=
  ⟨rfl, rfl, rfl, rfl⟩
theorem regGetRegAdd (k j : String) (o : KObj) :
    ∀ reg : Registry, regGet (regAdd reg k o) j =
      if k = j then regGet reg j ++ [o] else regGet reg j := by
  intro reg
  induction reg with
  | nil =>
    by_cases h : k = j <;> simp [regAdd, regGet, h]
  | cons p rest ih =>
    obtain ⟨k', l⟩ := p
    by_cases h1 : k' = k
    · subst h1
      by_cases h2 : k' = j <;> simp [regAdd, regGet, h2]
    · by_cases h2 : k' = j
      · subst h2
        have h3 : k ≠ k' := fun hh => h1 hh.symm
        simp [regAdd, regGet, h1, h3]
      · simp [regAdd, regGet, h1, h2, ih]

theorem regMemPCons (k' : String) (l : List KObj) (rest : Registry) (x : KObj) :
    regMemP ((k', l) :: rest) x ↔ x ∈ l ∨ regMemP rest x := by
  constructor
  · rintro ⟨p, hp, hx⟩
    rcases List.mem_cons.mp hp with h | h
    · subst h
      exact .inl hx
    · exact .inr ⟨p, h, hx⟩
  · rintro (h | ⟨p, hp, hx⟩)
    · exact ⟨(k', l), List.mem_cons_self _ _, h⟩
    · exact ⟨p, List.mem_cons_of_mem _ hp, hx⟩

theorem regMemPRegAdd (k : String) (o x : KObj) :
    ∀ reg : Registry, regMemP (regAdd reg k o) x ↔ regMemP reg x ∨ x = o := by
  intro reg
  induction reg with
  | nil =>
    show regMemP [(k, [o])] x ↔ regMemP [] x ∨ x = o
    rw [regMemPCons]
    simp [regMemP]
  | cons p rest ih =>
    obtain ⟨k', l⟩ := p
    by_cases h1 : k' = k
    · subst h1
      rw [show regAdd ((k', l) :: rest) k' o = (k', l ++ [o]) :: rest from by simp [regAdd]]
      rw [regMemPCons, regMemPCons]
      simp [List.mem_append]
      tauto
    · rw [show regAdd ((k', l) :: rest) k o = (k', l) :: regAdd rest k o from by
        simp [regAdd, h1]]
      rw [regMemPCons, regMemPCons, ih]
      tauto

theorem addObjsGet :
    ∀ (objs : List KObj) (reg reg2 : Registry), addObjs reg objs = .ok reg2 →
      ∀ j, regGet reg2 j = regGet reg j ++ objsFor j objs := by
  intro objs
  induction objs with
  | nil =>
    intro reg reg2 h j
    simp [addObjs] at h
    subst h
    simp [objsFor]
  | cons o rest ih =>
    intro reg reg2 h j
    cases hk : o.kind with
    | none => simp [addObjs, hk] at h
    | some k =>
      simp only [addObjs, hk] at h
      have h2 := ih _ _ h j
      rw [h2, regGetRegAdd]
      by_cases hj : pyLower k = j
      · simp [objsFor, List.filter_cons, hk, hj, List.append_assoc]
      · simp [objsFor, List.filter_cons, hk, hj]

theorem addObjsMem :
    ∀ (objs : List KObj) (reg reg2 : Registry) (x : KObj),
      addObjs reg objs = .ok reg2 → regMemP reg2 x → regMemP reg x ∨ x ∈ objs := by
  intro objs
  induction objs with
  | nil =>
    intro reg reg2 x h hm
    simp [addObjs] at h
    subst h
    exact .inl hm
  | cons o rest ih =>
    intro reg reg2 x h hm
    cases hk : o.kind with
    | none => simp [addObjs, hk] at h
    | some k =>
      simp only [addObjs, hk] at h
      rcases ih _ _ x h hm with h2 | h2
      · rcases (regMemPRegAdd _ _ _ _).mp h2 with h3 | h3
        · exact .inl h3
        · exact .inr (by simp [h3])
      · exact .inr (by simp [h2])

/-- Claim C4: a manifest of kind "template" is never itself added to the
registry - on a 201 expansion response exactly the returned objects are
appended, each under its own lowercase kind in return order, and the
template object is absent from the result whenever it was absent before
and is not among the returned objects; any non-201 response aborts
processing with the status-and-body error. -/
theorem c4_template_expansion :
    ∀ (s : Session) (respond : KObj → TplResp) (reg : Registry) (aname : String)
      (t : KObj) (k : String) (rest : List (String × KObj)),
    t.kind = some k → pyLower k = "template" →
    (s.oapiResources.contains "templates" || s.kapiResources.contains "templates") = true →
    (((respond t).status ≠ 201 →
       processList s respond reg ((aname, t) :: rest) =
         .error (.providerFailed (toString (respond t).status ++ " " ++ (respond t).body))) ∧
     (∀ nm objs reg2, (respond t).status = 201 → metaNameLookup t = .ok nm →
       (respond t).objects = some objs → addObjs reg objs = .ok reg2 →
       (processList s respond reg ((aname, t) :: rest) = processList s respond reg2 rest ∧
        (∀ j, regGet reg2 j = regGet reg j ++ objsFor j objs) ∧
        (¬ regMemP reg t → t ∉ objs → ¬ regMemP reg2 t)))) := by
  intro s respond reg aname t k rest hk hlow hsup
  have hres : kindToResource "template" = some "templates" := rfl
  have hnotun :
      (!(s.oapiResources.contains "templates") && !(s.kapiResources.contains "templates")) = false := by
    cases ho : s.oapiResources.contains "templates" <;>
      cases hq : s.kapiResources.contains "templates" <;> simp_all
  constructor
  · intro hst
    have hbeq : ((respond t).status == 201) = false := by simp [hst]
    have hone : processOne s respond reg (aname, t) =
        .error (.providerFailed (toString (respond t).status ++ " " ++ (respond t).body)) := by
      simp only [processOne, hk, hlow, hres, hnotun, processTemplate, hbeq]
      simp
    simp [processList, hone]
  · intro nm objs reg2 h201 hnm hobjs hadd
    have htpl : processTemplate respond t = .ok objs := by
      simp [processTemplate, h201, hnm, hobjs]
    have hone : processOne s respond reg (aname, t) = addObjs reg objs := by
      simp only [processOne, hk, hlow, hres, hnotun, htpl]
      simp
    refine ⟨?_, addObjsGet objs reg reg2 hadd, ?_⟩
    · simp [processList, hone, hadd]
    · intro hnr hno hc
      rcases addObjsMem objs reg reg2 t hadd hc with h | h
      · exact hnr h
      · exact hno h

/-- Witness for C4: one template artifact whose expansion returns a single
service; processing continues on the registry holding exactly that
service under the key "service". -/
theorem c4_template_expansion_witness :
    processList c4S c4Respond [] [("app.yaml", c4Tpl)] =
      processList c4S c4Respond [("service", [c4Svc])] [] :=
  ((c4_template_expansion c4S c4Respond [] "app.yaml" c4Tpl "Template" []
      rfl (by decide) (by decide)).2 "tpl" [c4Svc] [("service", [c4Svc])]
      rfl rfl rfl rfl).1

/-- Claim C5: in a live run, a 201 response to an artifact's POST lets the
pass continue with the request recorded; any other status ends the whole
pass at once with the status-and-body message, the remaining artifacts
untouched and every request already issued still recorded - nothing is
rolled back (`deployLoop` never removes from or rewrites `posts`). -/
theorem c5_deploy_abort :
    ∀ (s : Session) (post : String → KObj → PostResp) (kind : String) (art : KObj)
      (rest posts : List (String × KObj)) (logs : List String) (url : String),
    s.dryrun = false →
    getUrl s (getNamespace s art) kind none = .ok url →
    (((post url art).status ≠ 201 →
        deployLoop s post ((kind, art) :: rest) posts logs =
          ⟨posts ++ [(url, art)], logs,
           some (.providerFailed
             (toString (post url art).status ++ " " ++ (post url art).body))⟩) ∧
     (∀ nm, (post url art).status = 201 → metaNameLookup art = .ok nm →
        deployLoop s post ((kind, art) :: rest) posts logs =
          deployLoop s post rest (posts ++ [(url, art)]) logs)) := by
  intro s post kind art rest posts logs url hdry hurl
  constructor
  · intro hst
    have hbeq : ((post url art).status == 201) = false := by simp [hst]
    simp [deployLoop, hurl, hdry, hbeq]
  · intro nm h201 hnm
    simp [deployLoop, hurl, hdry, h201, hnm]

/-- Witness for C5: a one-pod registry against a cluster answering 403
ends the pass with that request recorded and the 403-denied error. -/
theorem c5_deploy_abort_witness :
    deployLoop c5S c5Post [("pod", c5Pod)] [] [] =
      ⟨[("https://h/oapi/v1/namespaces/default/pods/?access_token=tok", c5Pod)], [],
       some (.providerFailed "403 denied")⟩ :=
  (c5_deploy_abort c5S c5Post "pod" c5Pod [] [] []
      "https://h/oapi/v1/namespaces/default/pods/?access_token=tok" rfl rfl).1
    (by decide)

theorem deployLoopDry (s : Session) (post : String → KObj → PostResp)
    (hdry : s.dryrun = true) :
    ∀ (l posts : List (String × KObj)) (logs : List String),
      (∀ p ∈ l, p.1 ≠ "") →
      deployLoop s post l posts logs = ⟨posts, logs ++ l.map (dryrunUrl s), none⟩ := by
  intro l
  induction l with
  | nil =>
    intro posts logs _
    simp [deployLoop]
  | cons p rest ih =>
    intro posts logs h
    obtain ⟨kind, art⟩ := p
    have hk : kind ≠ "" := h (kind, art) (by simp)
    obtain ⟨r, hr⟩ := kindToResourceSome kind hk
    have hex : ∃ u, getUrl s (getNamespace s art) kind none = .ok u := by
      unfold getUrl
      rw [hr]
      exact ⟨_, rfl⟩
    obtain ⟨u, hu⟩ := hex
    have hdru : dryrunUrl s (kind, art) = u := by simp [dryrunUrl, hu]
    have hrest : ∀ q ∈ rest, q.1 ≠ "" := fun q hq => h q (by simp [hq])
    simp only [deployLoop, hu, hdry, if_true]
    rw [ih _ _ hrest, List.map_cons, hdru]
    simp [List.append_assoc]

/-- Claim C6: with the dry-run flag set, `deploy` issues no POST at all and
logs, in registry order, the URL it would have used for every artifact in
the registry, ending without error. -/
theorem c6_dryrun_no_calls :
    ∀ (s : Session) (post : String → KObj → PostResp) (reg : Registry),
    s.dryrun = true → (∀ p ∈ regPairs reg, p.1 ≠ "") →
    deploy s post reg = ⟨[], (regPairs reg).map (dryrunUrl s), none⟩ := by
  intro s post reg hdry h
  unfold deploy
  rw [deployLoopDry s post hdry _ _ _ h]
  simp

/-- Witness for C6: a one-pod registry in dry-run mode logs exactly the
pod's URL and records no request. -/
theorem c6_dryrun_no_calls_witness :
    deploy c6S c6Post c6Reg =
      ⟨[], ["https://h/oapi/v1/namespaces/default/pods/?access_token=tok"], none⟩ :=
  c6_dryrun_no_calls c6S c6Post c6Reg rfl (by decide)

/-- Claim C10: on the success path (status 201) the deploy loop still dies
with the bare lookup error when the artifact has no metadata name - the
failing POST having been issued - and template expansion on a 201
response likewise dies on the template's missing metadata name; the error
is the uncategorized KeyError for whichever level of
`artifact["metadata"]["name"]` is missing. -/
theorem c10_missing_name :
    ∀ (s : Session) (post : String → KObj → PostResp) (kind : String) (art : KObj)
      (rest posts : List (String × KObj)) (logs : List String) (url : String)
      (respond : KObj → TplResp) (t : KObj) (e et : PyError),
    s.dryrun = false →
    getUrl s (getNamespace s art) kind none = .ok url →
    (post url art).status = 201 →
    metaNameLookup art = .error e →
    (respond t).status = 201 →
    metaNameLookup t = .error et →
    (deployLoop s post ((kind, art) :: rest) posts logs =
       ⟨posts ++ [(url, art)], logs, some e⟩ ∧
     processTemplate respond t = .error et ∧
     (e = .keyError "metadata" ∨ e = .keyError "name") ∧
     (et = .keyError "metadata" ∨ et = .keyError "name")) := by
  intro s post kind art rest posts logs url respond t e et hdry hurl h201 hname ht201 htname
  have hclass : ∀ (a : KObj) (e2 : PyError), metaNameLookup a = .error e2 →
      e2 = .keyError "metadata" ∨ e2 = .keyError "name" := by
    intro a e2 he
    cases hm : a.metadata with
    | none =>
      simp [metaNameLookup, hm] at he
      exact .inl he.symm
    | some m =>
      cases hn : m.nameVal with
      | none =>
        simp [metaNameLookup, hm, hn] at he
        exact .inr he.symm
      | some v => simp [metaNameLookup, hm, hn] at he
  refine ⟨?_, ?_, hclass art e hname, hclass t et htname⟩
  · simp [deployLoop, hurl, hdry, h201, hname]
  · simp [processTemplate, ht201, htname]

/-- Witness for C10: a pod whose metadata lacks a name dies with KeyError
after its 201 POST, and a template without metadata dies after its 201
expansion response. -/
theorem c10_missing_name_witness :
    deployLoop c10S c10Post [("pod", c10Art)] [] [] =
      ⟨[("https://h/oapi/v1/namespaces/default/pods/?access_token=None", c10Art)], [],
       some (.keyError "name")⟩ ∧
    processTemplate c10Respond c10Tpl = .error (.keyError "metadata") := by
  have h := c10_missing_name c10S c10Post "pod" c10Art [] [] []
    "https://h/oapi/v1/namespaces/default/pods/?access_token=None" c10Respond c10Tpl
    (.keyError "name") (.keyError "metadata") rfl rfl rfl rfl rfl rfl
  exact ⟨h.1, h.2.1⟩

theorem strNeEmptyOfToList (s : String) (h : s.toList ≠ []) : s ≠ "" := by
  intro hc
  rw [hc] at h
  exact h rfl

theorem listNeNilOfLast {l : List Char} {c : Char} (h : l.getLast? = some c) : l ≠ [] := by
  intro hc
  rw [hc] at h
  cases h

theorem strHeadAppendLeft (a b : String) (c : Char) (h : a.toList.head? = some c) :
    (a ++ b).toList.head? = some c := by
  rw [strToListAppend]
  cases hl : a.toList with
  | nil =>
    rw [hl] at h
    cases h
  | cons c2 tl =>
    rw [hl] at h
    simpa using h

theorem strLastAppend (a b : String) (h : b.toList ≠ []) :
    (a ++ b).toList.getLast? = b.toList.getLast? := by
  rw [strToListAppend]
  exact List.getLast?_append_of_ne_nil _ h

theorem noQmarkAppend (a b : String) :
    noQmark (a ++ b) = (noQmark a && noQmark b) := by
  unfold noQmark
  rw [strToListAppend, List.all_append]

theorem pyUrljoinSlash (base rel : String)
    (hb : base.toList.getLast? = some '/') (hr : rel ≠ "")
    (hq : rel.toList.head? ≠ some '?') :
    pyUrljoin base rel = base ++ rel := by
  have hbne : base ≠ "" := by
    intro h
    rw [h] at hb
    exact absurd hb (by decide)
  have hqp : ¬ ((rel.toList.head? == some '?') = true) := by
    simp only [beq_iff_eq]
    exact hq
  unfold pyUrljoin
  rw [if_neg hbne, if_neg hr, if_neg hqp]
  have h2 : base.toList.reverse.head? = some '/' := by
    rw [List.head?_reverse]
    exact hb
  have h3 : (base.toList.reverse.dropWhile (fun c => c != '/')).reverse = base.toList := by
    cases hrev : base.toList.reverse with
    | nil =>
      rw [hrev] at h2
      cases h2
    | cons c tl =>
      rw [hrev] at h2
      have hc : c = '/' := by
        simpa using h2
      subst hc
      rw [List.dropWhile_cons, if_neg (by simp)]
      rw [← hrev, List.reverse_reverse]
  rw [h3, strMkToList]

theorem pyUrljoinQuery (base rel : String) (hbne : base ≠ "")
    (hq : rel.toList.head? = some '?') (hnoq : noQmark base = true) :
    pyUrljoin base rel = base ++ rel := by
  have hr : rel ≠ "" := by
    intro h
    rw [h] at hq
    cases hq
  have hqp : (rel.toList.head? == some '?') = true := by
    rw [hq]
    rfl
  unfold pyUrljoin
  rw [if_neg hbne, if_neg hr, if_pos hqp]
  have h3 : base.toList.takeWhile (fun c => c != '?') = base.toList := by
    apply List.takeWhile_eq_self_iff.mpr
    intro x hx
    unfold noQmark at hnoq
    exact List.all_eq_true.mp hnoq x hx
  rw [h3, strMkToList]

theorem safeSegNe (t : String) (h : safeSeg t = true) : t ≠ "" := by
  unfold safeSeg at h
  rw [Bool.and_eq_true] at h
  simpa using h.1

theorem safeSegNoQ (t : String) (h : safeSeg t = true) : noQmark t = true := by
  unfold safeSeg at h
  rw [Bool.and_eq_true] at h
  have h2 := h.2
  unfold noQmark
  apply List.all_eq_true.mpr
  intro x hx
  have hx2 := List.all_eq_true.mp h2 x hx
  rw [Bool.or_eq_true] at hx2
  rcases hx2 with h3 | h3
  · simp only [bne_iff_ne, ne_eq]
    intro hxe
    rw [hxe] at h3
    exact absurd h3 (by decide)
  · simp only [beq_iff_eq] at h3
    subst h3
    decide

theorem safeSegHead (t : String) (h : safeSeg t = true) : t.toList.head? ≠ some '?' := by
  cases ht : t.toList with
  | nil => simp
  | cons c tl =>
    have hq := safeSegNoQ t h
    unfold noQmark at hq
    rw [ht] at hq
    have hc := List.all_eq_true.mp hq c (by simp)
    simp only [List.head?]
    intro he
    have hce : c = '?' := by simpa using he
    rw [hce] at hc
    exact absurd hc (by decide)

theorem strEmptyAppend (s : String) : "" ++ s = s := by
  cases s with
  | mk l =>
    show String.mk ([] ++ l) = String.mk l
    rw [List.nil_append]

theorem relHead (nsName r : String) :
    ("namespaces/" ++ nsName ++ "/" ++ r ++ "/").toList.head? = some 'n' := by
  apply strHeadAppendLeft
  apply strHeadAppendLeft
  apply strHeadAppendLeft
  apply strHeadAppendLeft
  decide

theorem relNe (nsName r : String) : ("namespaces/" ++ nsName ++ "/" ++ r ++ "/") ≠ "" := by
  intro hc
  have h := relHead nsName r
  rw [hc] at h
  exact absurd h (by decide)

theorem relLast (nsName r : String) :
    ("namespaces/" ++ nsName ++ "/" ++ r ++ "/").toList.getLast? = some '/' := by
  rw [strLastAppend _ "/" (by decide)]
  decide

theorem relNoQ (nsName r : String) (hns : safeSeg nsName = true) (hsr : safeSeg r = true) :
    noQmark ("namespaces/" ++ nsName ++ "/" ++ r ++ "/") = true := by
  rw [noQmarkAppend, noQmarkAppend, noQmarkAppend, noQmarkAppend]
  rw [safeSegNoQ nsName hns, safeSegNoQ r hsr]
  rw [(by decide : noQmark "namespaces/" = true), (by decide : noQmark "/" = true)]
  rfl

theorem goodBaseLast (base : String) (hgb : goodBase base = true) :
    base.toList.getLast? = some '/' := by
  unfold goodBase at hgb
  rw [Bool.and_eq_true] at hgb
  simpa using hgb.1

theorem goodBaseNoQ (base : String) (hgb : goodBase base = true) : noQmark base = true := by
  unfold goodBase at hgb
  rw [Bool.and_eq_true] at hgb
  exact hgb.2

theorem qHead (tok : Option String) :
    ("?access_token=" ++ pyStr tok).toList.head? = some '?' := by
  apply strHeadAppendLeft
  decide

theorem url1Join (base nsName r : String) (hgb : goodBase base = true) :
    pyUrljoin base ("namespaces/" ++ nsName ++ "/" ++ r ++ "/") =
      base ++ ("namespaces/" ++ nsName ++ "/" ++ r ++ "/") := by
  apply pyUrljoinSlash base _ (goodBaseLast base hgb) (relNe nsName r)
  rw [relHead nsName r]
  decide

theorem url1Last (base nsName r : String) :
    (base ++ ("namespaces/" ++ nsName ++ "/" ++ r ++ "/")).toList.getLast? = some '/' := by
  rw [strLastAppend base _ (listNeNilOfLast (relLast nsName r))]
  exact relLast nsName r

theorem url1NoQ (base nsName r : String) (hgb : goodBase base = true)
    (hns : safeSeg nsName = true) (hsr : safeSeg r = true) :
    noQmark (base ++ ("namespaces/" ++ nsName ++ "/" ++ r ++ "/")) = true := by
  rw [noQmarkAppend, goodBaseNoQ base hgb, relNoQ nsName r hns hsr]
  rfl

theorem getUrlShapeNone (base nsName r : String) (tok : Option String)
    (hgb : goodBase base = true) (hns : safeSeg nsName = true) (hsr : safeSeg r = true) :
    pyUrljoin (pyUrljoin base ("namespaces/" ++ nsName ++ "/" ++ r ++ "/"))
      ("?access_token=" ++ pyStr tok) =
    base ++ "namespaces/" ++ nsName ++ "/" ++ r ++ "/" ++ "?access_token=" ++ pyStr tok := by
  rw [url1Join base nsName r hgb]
  rw [pyUrljoinQuery _ _ (strNeEmptyOfToList _ (listNeNilOfLast (url1Last base nsName r)))
    (qHead tok) (url1NoQ base nsName r hgb hns hsr)]
  simp only [strAppendAssoc]

theorem getUrlShapeSome (base nsName r n : String) (tok : Option String)
    (hgb : goodBase base = true) (hns : safeSeg nsName = true) (hsr : safeSeg r = true)
    (hnn : safeSeg n = true) :
    pyUrljoin (pyUrljoin (pyUrljoin base ("namespaces/" ++ nsName ++ "/" ++ r ++ "/")) n)
      ("?access_token=" ++ pyStr tok) =
    base ++ "namespaces/" ++ nsName ++ "/" ++ r ++ "/" ++ n ++ "?access_token=" ++ pyStr tok := by
  rw [url1Join base nsName r hgb]
  rw [pyUrljoinSlash _ n (url1Last base nsName r) (safeSegNe n hnn) (safeSegHead n hnn)]
  have hu2NoQ : noQmark (base ++ ("namespaces/" ++ nsName ++ "/" ++ r ++ "/") ++ n) = true := by
    rw [noQmarkAppend, url1NoQ base nsName r hgb hns hsr, safeSegNoQ n hnn]
    rfl
  have hu2Ne : base ++ ("namespaces/" ++ nsName ++ "/" ++ r ++ "/") ++ n ≠ "" := by
    apply strNeEmptyOfToList
    rw [strToListAppend]
    intro hc
    rcases List.append_eq_nil.mp hc with ⟨-, h2⟩
    apply safeSegNe n hnn
    cases n with
    | mk l =>
      have h3 : l = [] := h2
      rw [h3]
  rw [pyUrljoinQuery _ _ hu2Ne (qHead tok) hu2NoQ]
  simp only [strAppendAssoc]

/-- Claim C3 as amended: the routing and path shape hold as claimed - the
extended (OpenShift) catalog is consulted first, the namespace and
resource appear literally as path segments, the name segment appears
exactly when requested - but the access token is appended as
`?access_token=None` (Python renders the absent token as the string
"None"), not as an empty value. -/
theorem c3_url_routing_amended :
    ∀ (s : Session) (nsName kind r : String) (objName : Option String),
    kindToResource kind = some r →
    goodBase s.openshiftApi = true → goodBase s.kubernetesApi = true →
    safeSeg nsName = true → safeSeg r = true →
    (∀ n, objName = some n → safeSeg n = true) →
    ((s.oapiResources.contains r = true →
       getUrl s nsName kind objName =
         .ok (s.openshiftApi ++ "namespaces/" ++ nsName ++ "/" ++ r ++ "/" ++
              nameSeg objName ++ "?access_token=" ++ pyStr s.accessToken)) ∧
     (s.oapiResources.contains r = false → s.kapiResources.contains r = true →
       getUrl s nsName kind objName =
         .ok (s.kubernetesApi ++ "namespaces/" ++ nsName ++ "/" ++ r ++ "/" ++
              nameSeg objName ++ "?access_token=" ++ pyStr s.accessToken))) := by
  intro s nsName kind r objName hk hgo hgk hns hsr hn
  have hn2 : objName = none ∨ ∃ n, objName = some n ∧ safeSeg n = true := by
    cases objName with
    | none => exact .inl rfl
    | some n => exact .inr ⟨n, rfl, hn n rfl⟩
  clear hn
  constructor
  · intro hc
    rcases hn2 with hObj | ⟨n, hObj, hnn⟩
    · subst hObj
      simp only [getUrl, hk, hc, nameSeg, if_true]
      rw [getUrlShapeNone s.openshiftApi nsName r s.accessToken hgo hns hsr]
      simp only [strAppendEmpty, strEmptyAppend, strAppendAssoc]
    · subst hObj
      simp only [getUrl, hk, hc, nameSeg, if_true]
      rw [getUrlShapeSome s.openshiftApi nsName r n s.accessToken hgo hns hsr hnn]
  · intro hc1 hc2
    rcases hn2 with hObj | ⟨n, hObj, hnn⟩
    · subst hObj
      simp only [getUrl, hk, hc1, hc2, nameSeg, if_true, Bool.false_eq_true, if_false]
      rw [getUrlShapeNone s.kubernetesApi nsName r s.accessToken hgk hns hsr]
      simp only [strAppendEmpty, strEmptyAppend, strAppendAssoc]
    · subst hObj
      simp only [getUrl, hk, hc1, hc2, nameSeg, if_true, Bool.false_eq_true, if_false]
      rw [getUrlShapeSome s.kubernetesApi nsName r n s.accessToken hgk hns hsr hnn]

/-- Witness for C3's amended theorem: pods on the extended API with a
name segment requested. -/
theorem c3_url_routing_amended_witness :
    getUrl c3S "proj" "pod" (some "p1") =
      .ok (c3S.openshiftApi ++ "namespaces/" ++ "proj" ++ "/" ++ "pods" ++ "/" ++
           nameSeg (some "p1") ++ "?access_token=" ++ pyStr c3S.accessToken) :=
  (c3_url_routing_amended c3S "proj" "pod" "pods" (some "p1") rfl (by decide) (by decide)
    (by decide) (by decide) (fun n h => by cases h; decide)).1 rfl

/-- Claim C3 counterexample: with the token absent the code appends
`?access_token=None`, not an empty token value. -/
theorem c3_url_counterexample :
    getUrl c3S "proj" "pod" none =
      .ok "https://127.0.0.1:8443/oapi/v1/namespaces/proj/pods/?access_token=None" ∧
    ("https://127.0.0.1:8443/oapi/v1/namespaces/proj/pods/?access_token=None" : String) ≠
      "https://127.0.0.1:8443/oapi/v1/namespaces/proj/pods/?access_token=" :=
  ⟨rfl, by decide⟩
